import Mathlib

/-!
Verification of the PyCardPay payment-gateway client core.

This file shallowly embeds the verified parts of the library:
the canonical order encoding (`order_to_xml`, `xml_to_string`),
the SHA-512 signing and verification scheme (`xml_get_sha512`,
`xml_check_sha512`), the response classification of `api.pay`,
the order decoder (`parse_order`) and the inline decoder of
`CardPay.parse_callback`, and the dict manipulation of
`CardPay.pay`.  Python dictionaries with heterogeneous values are
embedded as insertion-ordered association lists over a value type
`PyVal`; raised exceptions become an `Except PyErr` result.
Machine 64-bit arithmetic inside SHA-512 is `Nat` arithmetic
taken modulo 2 to the 64.
-/

set_option maxRecDepth 100000

/-- Lookup in an insertion-ordered association list (Python dict read). -/
def alookup {α : Type} : List (String × α) → String → Option α
  | [], _ => none
  | (k, v) :: rest, key => if k = key then some v else alookup rest key

/-- Update in an insertion-ordered association list.  Like a Python dict
assignment or `lxml` attribute `set`: an existing key keeps its position,
a new key is appended at the end. -/
def aset {α : Type} : List (String × α) → String → α → List (String × α)
  | [], key, v => [(key, v)]
  | (k, w) :: rest, key, v =>
      if k = key then (key, v) :: rest else (k, w) :: aset rest key v

/-- Embedded Python values, as they occur in the dict parameters of the
library: ints, strings, booleans, `decimal.Decimal` literals and `None`. -/
inductive PyVal : Type where
  | pyInt : Int → PyVal
  | pyStr : String → PyVal
  | pyBool : Bool → PyVal
  | pyDec : String → PyVal
  | pyNone : PyVal
deriving DecidableEq, Repr

/-- A Python dict with string keys, in insertion order. -/
abbrev PyDict : Type := List (String × PyVal)

/-- Embedded Python exceptions raised by the library code. -/
inductive PyErr : Type where
  | keyError : String → PyErr
  | typeError : PyErr
  | valueError : String → PyErr
  | xmlParsingError : String → String → PyErr
  | signatureError : String → PyErr
deriving DecidableEq, Repr

/-- Python `str()` of an embedded value. -/
def pyStrOf : PyVal → String
  | .pyInt n => toString n
  | .pyStr s => s
  | .pyBool true => "True"
  | .pyBool false => "False"
  | .pyDec s => s
  | .pyNone => "None"

/-- A decimal literal is nonzero iff it has a nonzero digit. -/
def decNonZero (s : String) : Bool :=
  s.any (fun c => c.isDigit && c != Char.ofNat 48)

/-- Python truthiness of an embedded value. -/
def pyTruthy : PyVal → Bool
  | .pyInt n => n != 0
  | .pyStr s => !s.isEmpty
  | .pyBool b => b
  | .pyDec s => decNonZero s
  | .pyNone => false

/-- Truthiness of `d.get(k)`. -/
def optTruthy (v : Option PyVal) : Bool :=
  match v with
  | some w => pyTruthy w
  | none => false

/-- `lxml` accepts only strings as attribute values; anything else raises
`TypeError`. -/
def pyAsStr : PyVal → Except PyErr String
  | .pyStr s => .ok s
  | _ => .error .typeError

/-- Python `d[k]`: `KeyError` when the key is missing. -/
def getItem (d : PyDict) (k : String) : Except PyErr PyVal :=
  match alookup d k with
  | some v => .ok v
  | none => .error (.keyError k)

/-- Project the success value of an `Except` result. -/
def exOk {α : Type} : Except PyErr α → Option α
  | .ok a => some a
  | .error _ => none

/-! ### SHA-512 over byte lists

`hashlib.sha512` embedded from FIPS 180-4: 64-bit words are `Nat`
modulo 2 to the 64; round constants are the fractional parts of the
cube roots of the first eighty primes, initial state the fractional
parts of the square roots of the first eight primes, both computed
here by integer root extraction. -/

/-- 64-bit truncation. -/
def mod64 (n : Nat) : Nat := n % 18446744073709551616

/-- 64-bit bitwise complement of a word below 2 to the 64. -/
def not64 (x : Nat) : Nat := 18446744073709551615 - x

/-- Right rotation of a 64-bit word by `k` places. -/
def rotr (k x : Nat) : Nat := x / 2 ^ k + x % 2 ^ k * 2 ^ (64 - k)

def bigSigma0 (x : Nat) : Nat := rotr 28 x ^^^ rotr 34 x ^^^ rotr 39 x

def bigSigma1 (x : Nat) : Nat := rotr 14 x ^^^ rotr 18 x ^^^ rotr 41 x

def smallSigma0 (x : Nat) : Nat := rotr 1 x ^^^ rotr 8 x ^^^ x / 2 ^ 7

def smallSigma1 (x : Nat) : Nat := rotr 19 x ^^^ rotr 61 x ^^^ x / 2 ^ 6

def chF (e f g : Nat) : Nat := (e &&& f) ^^^ (not64 e &&& g)

def majF (a b c : Nat) : Nat := (a &&& b) ^^^ (a &&& c) ^^^ (b &&& c)

/-- Fueled binary search for the integer `e`-th root. -/
def irootAux (e n : Nat) : Nat → Nat → Nat → Nat
  | 0, lo, _ => lo
  | fuel + 1, lo, hi =>
      if hi ≤ lo + 1 then lo
      else
        let m := (lo + hi) / 2
        if m ^ e ≤ n then irootAux e n fuel m hi else irootAux e n fuel lo m

/-- Integer `e`-th root (floor). -/
def iroot (e n : Nat) : Nat := irootAux e n 256 0 (n + 1)

/-- The first eighty primes, sources of the SHA-512 round constants. -/
def firstPrimes : List Nat :=
  [2, 3, 5, 7, 11, 13, 17, 19, 23, 29, 31, 37, 41, 43, 47, 53, 59, 61,
   67, 71, 73, 79, 83, 89, 97, 101, 103, 107, 109, 113, 127, 131, 137,
   139, 149, 151, 157, 163, 167, 173, 179, 181, 191, 193, 197, 199,
   211, 223, 227, 229, 233, 239, 241, 251, 257, 263, 269, 271, 277,
   281, 283, 293, 307, 311, 313, 317, 331, 337, 347, 349, 353, 359,
   367, 373, 379, 383, 389, 397, 401, 409]

/-- SHA-512 round constants K. -/
def sha512K : List Nat :=
  firstPrimes.map (fun p => iroot 3 (p * 2 ^ 192) % 18446744073709551616)

/-- SHA-512 initial hash state. -/
def sha512H0 : List Nat :=
  [2, 3, 5, 7, 11, 13, 17, 19].map
    (fun p => iroot 2 (p * 2 ^ 128) % 18446744073709551616)

/-- Big-endian 64-bit words from bytes. -/
def bytesToWords : List Nat → List Nat
  | b0 :: b1 :: b2 :: b3 :: b4 :: b5 :: b6 :: b7 :: rest =>
      (((((((b0 * 256 + b1) * 256 + b2) * 256 + b3) * 256 + b4) * 256 + b5)
        * 256 + b6) * 256 + b7) :: bytesToWords rest
  | _ => []

/-- `k` big-endian bytes of a natural number. -/
def natToBytesBE : Nat → Nat → List Nat
  | 0, _ => []
  | k + 1, n => natToBytesBE k (n / 256) ++ [n % 256]

/-- SHA-512 message padding: a 0x80 byte, zeros to 112 mod 128, then the
bit length as a 16-byte big-endian integer. -/
def sha512pad (msg : List Nat) : List Nat :=
  let len := msg.length
  let padLen := (128 + 111 - len % 128) % 128
  msg ++ 128 :: List.replicate padLen 0 ++ natToBytesBE 16 (8 * len)

/-- Message-schedule extension; the accumulator holds the words produced
so far in reverse. -/
def extendW : Nat → List Nat → List Nat
  | 0, wrev => wrev
  | fuel + 1, wrev =>
      extendW fuel
        (mod64 (smallSigma1 (wrev.getD 1 0) + wrev.getD 6 0 +
          smallSigma0 (wrev.getD 14 0) + wrev.getD 15 0) :: wrev)

/-- The eighty-word message schedule of one 128-byte block. -/
def messageSchedule (block : List Nat) : List Nat :=
  (extendW 64 (bytesToWords block).reverse).reverse

/-- One SHA-512 compression round on the state `[a, b, c, d, e, f, g, h]`. -/
def sha512Round (st : List Nat) (kw : Nat × Nat) : List Nat :=
  match st with
  | [a, b, c, d, e, f, g, h] =>
      let t1 := mod64 (h + bigSigma1 e + chF e f g + kw.1 + kw.2)
      let t2 := mod64 (bigSigma0 a + majF a b c)
      [mod64 (t1 + t2), a, b, c, mod64 (d + t1), e, f, g]
  | _ => st

/-- Process one 128-byte block. -/
def processBlock (hs block : List Nat) : List Nat :=
  let st := (sha512K.zip (messageSchedule block)).foldl sha512Round hs
  (hs.zip st).map (fun p => mod64 (p.1 + p.2))

/-- Process the padded message block by block. -/
def sha512Blocks : Nat → List Nat → List Nat → List Nat
  | 0, hs, _ => hs
  | _ + 1, hs, [] => hs
  | fuel + 1, hs, msg =>
      sha512Blocks fuel (processBlock hs (msg.take 128)) (msg.drop 128)

/-- SHA-512 digest (64 bytes) of a byte list. -/
def sha512 (msg : List Nat) : List Nat :=
  let p := sha512pad msg
  let hs := sha512Blocks (p.length / 128 + 1) sha512H0 p
  hs.foldr (fun w acc => natToBytesBE 8 w ++ acc) []

/-- A lowercase hexadecimal digit. -/
def hexDigit (n : Nat) : Char :=
  if n < 10 then Char.ofNat (48 + n) else Char.ofNat (87 + n)

/-- Two lowercase hex characters of a byte. -/
def byteToHex (b : Nat) : String :=
  String.mk [hexDigit (b / 16), hexDigit (b % 16)]

/-- `hashlib.sha512(msg).hexdigest()`. -/
def sha512hex (msg : List Nat) : String :=
  (sha512 msg).foldl (fun acc b => acc ++ byteToHex b) ""

/-! ### Byte and transport encodings -/

/-- UTF-8 bytes of one code point. -/
def utf8Char (n : Nat) : List Nat :=
  if n < 128 then [n]
  else if n < 2048 then [192 + n / 64, 128 + n % 64]
  else if n < 65536 then [224 + n / 4096, 128 + n / 64 % 64, 128 + n % 64]
  else [240 + n / 262144, 128 + n / 4096 % 64, 128 + n / 64 % 64, 128 + n % 64]

/-- UTF-8 byte list of a string. -/
def strBytes (s : String) : List Nat :=
  s.data.foldr (fun c acc => utf8Char c.toNat ++ acc) []

/-- A base64 alphabet character. -/
def b64Char (n : Nat) : Char :=
  if n < 26 then Char.ofNat (65 + n)
  else if n < 52 then Char.ofNat (97 + (n - 26))
  else if n < 62 then Char.ofNat (48 + (n - 52))
  else if n = 62 then Char.ofNat 43
  else Char.ofNat 47

/-- `base64.standard_b64encode` over bytes. -/
def b64encodeBytes : List Nat → String
  | b0 :: b1 :: b2 :: rest =>
      let n := b0 * 65536 + b1 * 256 + b2
      String.mk [b64Char (n / 262144), b64Char (n / 4096 % 64),
        b64Char (n / 64 % 64), b64Char (n % 64)] ++ b64encodeBytes rest
  | [b0, b1] =>
      let n := b0 * 1024 + b1 * 4
      String.mk [b64Char (n / 4096), b64Char (n / 64 % 64), b64Char (n % 64),
        Char.ofNat 61]
  | [b0] =>
      let n := b0 * 16
      String.mk [b64Char (n / 64), b64Char (n % 64), Char.ofNat 61,
        Char.ofNat 61]
  | [] => ""

/-- Value of a base64 alphabet character. -/
def b64Val (c : Char) : Option Nat :=
  let n := c.toNat
  if 65 ≤ n ∧ n ≤ 90 then some (n - 65)
  else if 97 ≤ n ∧ n ≤ 122 then some (n - 97 + 26)
  else if 48 ≤ n ∧ n ≤ 57 then some (n - 48 + 52)
  else if n = 43 then some 62
  else if n = 47 then some 63
  else none

/-- `base64.standard_b64decode` over the character list: groups of four
characters with trailing `=` padding; malformed input yields `none`. -/
def b64decodeChars : List Char → Option (List Nat)
  | [] => some []
  | c0 :: c1 :: c2 :: c3 :: rest => do
      let v0 ← b64Val c0
      let v1 ← b64Val c1
      if c2.toNat = 61 ∧ c3.toNat = 61 ∧ rest = [] then
        some [v0 * 4 + v1 / 16]
      else do
        let v2 ← b64Val c2
        if c3.toNat = 61 ∧ rest = [] then
          some [v0 * 4 + v1 / 16, v1 % 16 * 16 + v2 / 4]
        else do
          let v3 ← b64Val c3
          let tail ← b64decodeChars rest
          some ((v0 * 4 + v1 / 16) :: (v1 % 16 * 16 + v2 / 4) ::
            (v2 % 4 * 64 + v3) :: tail)
  | _ => none

/-- `base64.standard_b64decode` of a string. -/
def b64decodeStr (s : String) : Option (List Nat) := b64decodeChars s.data

/-! ### XML elements and serialization

An `lxml.etree` element: tag, insertion-ordered attributes, children. -/

inductive Elem : Type where
  | mk : String → List (String × String) → List Elem → Elem

def Elem.tag : Elem → String
  | .mk t _ _ => t

def Elem.attrs : Elem → List (String × String)
  | .mk _ a _ => a

def Elem.children : Elem → List Elem
  | .mk _ _ c => c

/-- `element.get(key)`. -/
def Elem.get (e : Elem) (k : String) : Option String := alookup e.attrs k

/-- `element.set(key, value)`: replaces in place or appends. -/
def Elem.set (e : Elem) (k v : String) : Elem :=
  .mk e.tag (aset e.attrs k v) e.children

/-- `element.append(child)`. -/
def Elem.appendChild (e c : Elem) : Elem :=
  .mk e.tag e.attrs (e.children ++ [c])

/-- A double quote character. -/
def dq : String := (Char.ofNat 34).toString

/-- Attribute-value escaping as performed by the `lxml` serializer. -/
def escAttr (s : String) : String :=
  s.data.foldr
    (fun c acc =>
      if c.toNat = 38 then "&amp;" ++ acc
      else if c.toNat = 60 then "&lt;" ++ acc
      else if c.toNat = 62 then "&gt;" ++ acc
      else if c.toNat = 34 then "&quot;" ++ acc
      else c.toString ++ acc) ""

/-- Serialized attribute list, insertion order. -/
def attrsStr (attrs : List (String × String)) : String :=
  attrs.foldl
    (fun acc p => acc ++ " " ++ p.1 ++ "=" ++ dq ++ escAttr p.2 ++ dq) ""

/-- Pretty-printed serialization of an element, two-space indentation,
as `etree.tostring(..., pretty_print=True)` renders the trees this
library builds.  The fuel bounds the tree depth. -/
def elemStrAux : Nat → String → Elem → String
  | 0, _, _ => ""
  | fuel + 1, ind, .mk t attrs children =>
      if children.isEmpty then ind ++ "<" ++ t ++ attrsStr attrs ++ "/>\n"
      else
        ind ++ "<" ++ t ++ attrsStr attrs ++ ">\n" ++
          children.foldl (fun acc c => acc ++ elemStrAux fuel (ind ++ "  ") c)
            "" ++
          ind ++ "</" ++ t ++ ">\n"

/-- A single quote character. -/
def sqc : String := (Char.ofNat 39).toString

/-- The XML declaration emitted by `etree.tostring(xml_declaration=True,
encoding=utf-8)`. -/
def xmlDecl : String :=
  "<?xml version=" ++ sqc ++ "1.0" ++ sqc ++ " encoding=" ++ sqc ++
    "utf-8" ++ sqc ++ "?>\n"

/-- `utils.xml_to_string`: serialize, optionally base64-encode. -/
def xml_to_string (xml : Elem) (encode_base64 : Bool) : String :=
  let s := xmlDecl ++ elemStrAux 32 "" xml
  if encode_base64 then b64encodeBytes (strBytes s) else s

/-- `utils.xml_get_sha512`: SHA-512 hex digest of the serialized order
concatenated with the secret. -/
def xml_get_sha512 (xml : Elem) (secret : List Nat) : String :=
  sha512hex (strBytes (xml_to_string xml false) ++ secret)

/-- `utils.xml_check_sha512`: decode the base64 payload and compare the
recomputed digest; an undecodable payload raises `TypeError`. -/
def xml_check_sha512 (base64_string sig : String) (secret : List Nat) :
    Except PyErr Bool :=
  match b64decodeStr base64_string with
  | some dec => .ok (sha512hex (dec ++ secret) == sig)
  | none => .error .typeError

/-! ### `utils.order_to_xml`

The encoder follows the source line by line: mandatory fields raise
`KeyError`, optional attributes are set only when truthy, boolean flags
serialize as yes/no, and `lxml` rejects non-string attribute values with
`TypeError` when the element is created.  The current date (the default
for a recurring `begin`) is threaded in as the `today` parameter. -/

/-- Set attribute `k` from the order dict when the stored value is
truthy, as in `if order.get(k): e_order.set(k, order[k])`. -/
def setIfTruthy (e : Elem) (order : PyDict) (k : String) :
    Except PyErr Elem :=
  match alookup order k with
  | some v =>
      if pyTruthy v then (fun s => e.set k s) <$> pyAsStr v else .ok e
  | none => .ok e

/-- The `E.order(...)` root element with its conditional attributes. -/
def orderRoot (order : PyDict) (generate_card_token : Bool)
    (card_token : Option String) : Except PyErr Elem := do
  let walletV ← getItem order "wallet_id"
  let numberV ← getItem order "number"
  let descV := (alookup order "description").getD (PyVal.pyStr "")
  let amountV ← getItem order "amount"
  let emailV ← getItem order "email"
  let twoPhase :=
    if alookup order "is_two_phase" = some (PyVal.pyBool true) then "yes"
    else "no"
  let gateway :=
    if alookup order "is_gateway" = some (PyVal.pyBool true) then "yes"
    else "no"
  let localeV := (alookup order "locale").getD (PyVal.pyStr "en")
  let descS ← pyAsStr descV
  let emailS ← pyAsStr emailV
  let localeS ← pyAsStr localeV
  let e0 : Elem := .mk "order"
    [("wallet_id", pyStrOf walletV), ("number", pyStrOf numberV),
     ("description", descS), ("amount", pyStrOf amountV),
     ("email", emailS), ("is_two_phase", twoPhase),
     ("is_gateway", gateway), ("locale", localeS)] []
  let e1 ← setIfTruthy e0 order "currency"
  let e2 ← match alookup order "ip" with
    | some v =>
        if Elem.get e1 "is_gateway" == some "yes" && pyTruthy v then
          (fun s => e1.set "ip" s) <$> pyAsStr v
        else .ok e1
    | none => .ok e1
  let e3 ← setIfTruthy e2 order "customer_id"
  let e4 ← setIfTruthy e3 order "note"
  let e5 ← setIfTruthy e4 order "return_url"
  let e6 ← setIfTruthy e5 order "success_url"
  let e7 ← setIfTruthy e6 order "decline_url"
  let e8 ← setIfTruthy e7 order "cancel_url"
  let e9 := if generate_card_token then e8.set "generate_card_token" "true"
    else e8
  let e10 := match card_token with
    | some t => e9.set "card_token" t
    | none => e9
  .ok e10

/-- Attribute list of an `E.xxx(**d)` call: every dict value must be a
string. -/
def kwargsToAttrs : PyDict → Except PyErr (List (String × String))
  | [] => .ok []
  | (k, v) :: rest => do
      let s ← pyAsStr v
      let tail ← kwargsToAttrs rest
      .ok ((k, s) :: tail)

/-- One `E.order_item(...)` child. -/
def itemElem (item : PyDict) : Except PyErr Elem := do
  let nameV ← getItem item "name"
  let nameS ← pyAsStr nameV
  let descS ← pyAsStr ((alookup item "description").getD (PyVal.pyStr ""))
  let countS := pyStrOf ((alookup item "count").getD (PyVal.pyInt 1))
  let priceS := pyStrOf ((alookup item "price").getD (PyVal.pyInt 0))
  .ok (Elem.mk "order_item"
    [("name", nameS), ("description", descS), ("count", countS),
     ("price", priceS)] [])

/-- Append the item children in list order. -/
def addItems (e : Elem) : List PyDict → Except PyErr Elem
  | [] => .ok e
  | item :: rest => do
      let child ← itemElem item
      addItems (e.appendChild child) rest

/-- Append the billing address: the dict gets a type=Billing discriminator
and becomes an `address` child. -/
def addBilling (e : Elem) (billing : Option PyDict) : Except PyErr Elem :=
  match billing with
  | some b =>
      if b.isEmpty then .ok e
      else do
        let attrs ← kwargsToAttrs (aset b "type" (PyVal.pyStr "Billing"))
        .ok (e.appendChild (Elem.mk "address" attrs []))
  | none => .ok e

/-- The shipping branch of the source calls `e_order.append(**shipping)`,
passing the dict as keyword arguments to `append`, which takes none:
a truthy shipping dict raises `TypeError`. -/
def addShipping (e : Elem) (shipping : Option PyDict) : Except PyErr Elem :=
  match shipping with
  | some s => if s.isEmpty then .ok e else .error .typeError
  | none => .ok e

/-- Append the `E.card(**card)` child. -/
def addCard (e : Elem) (card : Option PyDict) : Except PyErr Elem :=
  match card with
  | some c =>
      if c.isEmpty then .ok e
      else do
        let attrs ← kwargsToAttrs c
        .ok (e.appendChild (Elem.mk "card" attrs []))
  | none => .ok e

/-- Append the `E.recurring(...)` child.  `price` defaults to the order
amount attribute already on the element; `begin` defaults to the current
date `today`. -/
def addRecurring (e : Elem) (recurring : Option PyDict) (today : String) :
    Except PyErr Elem :=
  match recurring with
  | none => .ok e
  | some r =>
      if r.isEmpty then .ok e
      else
        match getItem r "period" with
        | .error err => .error err
        | .ok periodV =>
            let priceS := match alookup r "price" with
              | some v => pyStrOf v
              | none => (Elem.get e "amount").getD "None"
            match (match alookup r "begin" with
              | some v => pyAsStr v
              | none => .ok today) with
            | .error err => .error err
            | .ok beginS =>
                let er0 : Elem := .mk "recurring"
                  [("period", pyStrOf periodV), ("price", priceS),
                   ("begin", beginS)] []
                let er1 := match alookup r "count" with
                  | some v =>
                      if pyTruthy v then er0.set "count" (pyStrOf v) else er0
                  | none => er0
                .ok (e.appendChild er1)

/-- `utils.order_to_xml`. -/
def order_to_xml (order : PyDict) (items : List PyDict)
    (billing shipping card : Option PyDict) (generate_card_token : Bool)
    (card_token : Option String) (recurring : Option PyDict)
    (today : String) : Except PyErr Elem :=
  Except.bind (orderRoot order generate_card_token card_token) (fun e0 =>
    Except.bind (addItems e0 items) (fun e1 =>
      Except.bind (addBilling e1 billing) (fun e2 =>
        Except.bind (addShipping e2 shipping) (fun e3 =>
          Except.bind (addCard e3 card) (fun e4 =>
            addRecurring e4 recurring today)))))

/-- `CardPay.pay` builds the encoded order from
`dict(order, wallet_id=self.wallet_id)` and the caller's other
parameters; `generate_card_token` and `card_token` keep their defaults. -/
def cardPayPayXml (wallet_id : Int) (order : PyDict) (items : List PyDict)
    (billing shipping card recurring : Option PyDict) (today : String) :
    Except PyErr Elem :=
  order_to_xml (aset order "wallet_id" (PyVal.pyInt wallet_id)) items
    billing shipping card false none recurring today

/-! ### Response decoding -/

/-- Decoded attribute values: Python ints, strings, booleans, `Decimal`
values and `None`. -/
inductive Value : Type where
  | vInt : Int → Value
  | vStr : String → Value
  | vBool : Bool → Value
  | vDec : String → Value
  | vNone : Value
deriving DecidableEq, Repr

/-- Python `int(s)` on an attribute string: optional sign then digits. -/
def digitsVal (cs : List Char) : Option Nat :=
  if cs ≠ [] ∧ cs.all (fun c => c.isDigit) then
    some (cs.foldl (fun a c => a * 10 + (c.toNat - 48)) 0)
  else none

def pyIntOfString (s : String) : Option Int :=
  match s.data with
  | c :: rest =>
      if c.toNat = 45 then (fun n => -(n : Int)) <$> digitsVal rest
      else if c.toNat = 43 then (fun n => (n : Int)) <$> digitsVal rest
      else (fun n => (n : Int)) <$> digitsVal s.data
  | [] => none

/-- Validity of a `decimal.Decimal` literal: optional sign, digits with at
most one point, at least one digit. -/
def pyDecValid (s : String) : Bool :=
  let cs := match s.data with
    | c :: rest => if c.toNat = 45 ∨ c.toNat = 43 then rest else s.data
    | [] => []
  !cs.isEmpty && cs.any (fun c => c.isDigit) &&
    cs.all (fun c => c.isDigit || c.toNat = 46) &&
    decide (cs.countP (fun c => c.toNat == 46) ≤ 1)

/-- The per-attribute coercions shared by `utils.parse_order` and the
inline decoder of `CardPay.parse_callback`: `id` and `refund_id` map
the sentinel "-" to `None` and anything else through `int`; `is_3d`
compares against the literal "true"; `amount` and `refunded` go through
`Decimal`; everything else stays text. -/
def coerce (attr value : String) : Except PyErr Value :=
  if attr = "id" ∨ attr = "refund_id" then
    if value = "-" then .ok .vNone
    else match pyIntOfString value with
      | some n => .ok (.vInt n)
      | none => .error (.valueError value)
  else if attr = "is_3d" then .ok (.vBool (value = "true"))
  else if attr = "amount" ∨ attr = "refunded" then
    if pyDecValid value then .ok (.vDec value)
    else .error (.valueError value)
  else .ok (.vStr value)

/-- The decoding loop over a fixed attribute list: present attributes are
coerced and inserted in loop order. -/
def decodeAttrs : List String → Elem → Except PyErr (List (String × Value))
  | [], _ => .ok []
  | a :: rest, e =>
      match Elem.get e a with
      | none => decodeAttrs rest e
      | some v =>
          match coerce a v with
          | .error err => .error err
          | .ok val =>
              match decodeAttrs rest e with
              | .error err => .error err
              | .ok tail => .ok ((a, val) :: tail)

/-- The attribute list of `utils.parse_order`. -/
def parseOrderAttrs : List String :=
  ["id", "refund_id", "number", "status", "description", "date",
   "customer_id", "card_bin", "card_num", "card_holder", "decline_code",
   "decline_reason", "approval_code", "is_3d", "currency", "amount",
   "recurring_id", "refunded", "note"]

/-- The attribute list of the inline decoder in `CardPay.parse_callback`. -/
def callbackAttrs : List String :=
  ["id", "refund_id", "number", "status", "description", "date",
   "customer_id", "card_bin", "card_num", "card_holder", "decline_code",
   "approval_code", "is_3d", "currency", "amount", "recurring_id",
   "refunded", "note"]

/-- `utils.parse_order`. -/
def parse_order (xml : Elem) : Except PyErr (List (String × Value)) :=
  decodeAttrs parseOrderAttrs xml

/-- The decoding performed by `CardPay.parse_callback` after signature
verification. -/
def parseCallbackDecode (xml : Elem) : Except PyErr (List (String × Value)) :=
  decodeAttrs callbackAttrs xml

/-- Constructing an `XMLParsingError`: `ParsingError.__init__` accepts only
`msg` and the keyword argument `content`; any other keyword argument
(`method`, `url`, `data`) raises `TypeError` instead. -/
def raiseXmlParsingError (msg : String) (kwargNames : List String)
    (content : String) : PyErr :=
  if kwargNames.all (fun k => k == "content") then
    .xmlParsingError msg content
  else .typeError

/-- The classification of a parsed gateway reply in `api.pay`
(api.py lines 184-194): a `redirect` root yields a dict with the `url`
attribute, an `order` root goes through `parse_order`, and any other
root reaches a raise of `XMLParsingError` that passes the keyword
arguments `method`, `url`, `data` and `content`.  `content` is the raw
response body. -/
def payDecode (content : String) (r_xml : Elem) :
    Except PyErr (List (String × Value)) :=
  if r_xml.tag = "redirect" then
    .ok [("url", match r_xml.get "url" with
      | some s => Value.vStr s
      | none => Value.vNone)]
  else if r_xml.tag = "order" then parse_order r_xml
  else
    .error (raiseXmlParsingError
      ("Unknown XML response. Root tag is neitherredirect nor order: " ++
        r_xml.tag)
      ["method", "url", "data", "content"] content)

/-- `CardPay.parse_callback` (cardpay.py lines 358-379): base64-decode the
payload, compare the SHA-512 digest of (payload bytes concatenated with
the secret) against the supplied digest, and only on a match parse the
bytes (the external `etree.fromstring`, abstracted as `parseFn`) and run
the inline decoder. -/
def parse_callback (parseFn : List Nat → Except PyErr Elem)
    (secret : List Nat) (base64_string sig : String) :
    Except PyErr (List (String × Value)) :=
  match b64decodeStr base64_string with
  | none => .error .typeError
  | some dec =>
      if sha512hex (dec ++ secret) ≠ sig then
        .error (.signatureError "Incorrect signature")
      else
        match parseFn dec with
        | .error err => .error err
        | .ok xml => parseCallbackDecode xml

/-! ### Module-level declarations relevant to the 3-D-Secure claim -/

/-- The functions defined by module `PyCardPay.api`. -/
def apiModuleDefs : List String :=
  ["status_change", "status", "void", "refund", "capture", "pay",
   "payouts", "_list", "_status", "list_payments", "payments_status",
   "list_refunds", "refunds_status", "list_payouts", "payouts_status"]

/-- The names `PyCardPay.__init__` imports from `.api` on its first line. -/
def initImportsFromApi : List String :=
  ["capture", "pay", "refund", "status", "status_change", "void",
   "finish_3ds"]

/-- The encoding is independent of the current date exactly when the
recurring dict is absent, falsy, or carries an explicit begin date. -/
def recurringBeginIndep : Option PyDict → Bool
  | none => true
  | some r => r.isEmpty || (alookup r "begin").isSome

/-! ### Concrete inputs used by the witnesses and counterexamples -/

/-- The order of end-to-end scenario 1. -/
def order9 : PyDict :=
  [("wallet_id", PyVal.pyInt 20), ("number", PyVal.pyInt 10),
   ("amount", PyVal.pyInt 120), ("email", PyVal.pyStr "c@example.com")]

def shipping1 : PyDict := [("country", PyVal.pyStr "USA")]

def billing1 : PyDict := [("country", PyVal.pyStr "USA")]

def card1 : PyDict :=
  [("num", PyVal.pyStr "1111222233334444"),
   ("holder", PyVal.pyStr "John Doe")]

def item1 : PyDict := [("name", PyVal.pyStr "Computer desk")]

/-- A recurring dict without an explicit begin date. -/
def recNoBegin : PyDict := [("period", PyVal.pyInt 30)]

/-- A recurring dict with an explicit begin date. -/
def recWithBegin : PyDict :=
  [("period", PyVal.pyInt 30), ("begin", PyVal.pyStr "12.02.2015")]

/-- A parsed redirect reply carrying the 3-D-Secure continuation tokens. -/
def redirectWithTokens : Elem :=
  .mk "redirect"
    [("url", "https://acs.example.com/3ds"), ("MD", "md-token"),
     ("PaReq", "pareq-token")] []

/-- An order dict that already carries a caller-supplied wallet id. -/
def orderW : PyDict :=
  [("wallet_id", PyVal.pyInt 1), ("number", PyVal.pyInt 10),
   ("amount", PyVal.pyInt 120), ("email", PyVal.pyStr "c@example.com")]

theorem sha512hex_empty_vector :
    sha512hex [] =
      "cf83e1357eefb8bdf1542850d66d8007d620e4050b5715dc83f4a921d36ce9ce47d0d13c5d85f2b0ff8318d2877eec2f63b931bd47417a81a538327af927da3e" := by
  decide

theorem sha512hex_abc_vector :
    sha512hex [97, 98, 99] =
      "ddaf35a193617abacc417349ae20413112e6fa4e89a97ea20a9eeee64b55d39a2192992a274fc1a836ba3c23a3feebbd454d4423643ce80e2a9ac94fa54ca49f" := by
  decide

/-! ### Association-list lemmas -/

theorem alookup_aset_self {α : Type} (d : List (String × α)) (k : String)
    (v : α) : alookup (aset d k v) k = some v := by
  induction d with
  | nil => simp [aset, alookup]
  | cons p rest ih =>
      obtain ⟨k1, w⟩ := p
      by_cases h : k1 = k
      · subst h; simp [aset, alookup]
      · simp [aset, alookup, h, ih]

theorem alookup_aset_ne {α : Type} (d : List (String × α)) (k : String)
    (v : α) (k' : String) (h : k' ≠ k) :
    alookup (aset d k v) k' = alookup d k' := by
  have hkk : ¬ k = k' := fun hh => h hh.symm
  induction d with
  | nil => simp [aset, alookup, hkk]
  | cons p rest ih =>
      obtain ⟨k1, w⟩ := p
      by_cases h1 : k1 = k
      · subst h1; simp [aset, alookup, hkk]
      · by_cases h2 : k1 = k'
        · subst h2; simp [aset, alookup, h1]
        · simp [aset, alookup, h1, h2, ih]

/-- Claim C9: encoding the order of scenario 1 with no optional parameters
yields a root whose is_two_phase, is_gateway, locale and description
attributes are no, no, en and the empty string, and which carries no
currency attribute; this holds for every current date. -/
theorem c9_minimal_order_defaults (d : String) :
    (order_to_xml order9 [] none none none false none none d).map
      (fun e => (e.get "is_two_phase", e.get "is_gateway", e.get "locale",
        e.get "description", e.get "currency")) =
      .ok (some "no", some "no", some "en", some "", none) := by
  rfl

theorem c9_minimal_order_defaults_witness :
    (order_to_xml order9 [] none none none false none none
      "01.01.2015").map
      (fun e => (e.get "is_two_phase", e.get "is_gateway", e.get "locale",
        e.get "description", e.get "currency")) =
      .ok (some "no", some "no", some "en", some "", none) :=
  c9_minimal_order_defaults "01.01.2015"

/-- Claim C5 (code bug): a truthy shipping dict makes `order_to_xml` raise
`TypeError`, because the source calls `e_order.append(**shipping)` instead
of appending an `E.address(**shipping)` child; when shipping is absent the
children do follow the fixed order items, billing address, card,
recurring, and the billing address carries the type=Billing
discriminator. -/
theorem c5_shipping_branch_type_error :
    order_to_xml order9 [] none (some shipping1) none false none none
        "01.01.2015" = .error PyErr.typeError
    ∧ (order_to_xml order9 [item1] (some billing1) none (some card1) false
        none (some recWithBegin) "01.01.2015").map
        (fun e => e.children.map Elem.tag) =
      .ok ["order_item", "address", "card", "recurring"]
    ∧ (order_to_xml order9 [] (some billing1) none none false none none
        "x").map (fun e => e.children.map (fun c => alookup c.attrs "type")) =
      .ok [some "Billing"] :=
  ⟨rfl, rfl, rfl⟩

/-- Claim C6 (code bug): on a reply whose root is neither redirect nor
order, the raise in `api.pay` passes the keyword arguments method, url and
data to `XMLParsingError`, whose `ParsingError.__init__` accepts only msg
and content; the branch therefore raises `TypeError`, not the documented
`XMLParsingError`, and no content is attached.  Had only content been
passed, the intended exception would have been constructed. -/
theorem c6_unknown_root_raises_type_error :
    payDecode "<foo/>" (Elem.mk "foo" [] []) = .error PyErr.typeError
    ∧ raiseXmlParsingError
        "Unknown XML response. Root tag is neitherredirect nor order: foo"
        ["content"] "<foo/>" =
      PyErr.xmlParsingError
        "Unknown XML response. Root tag is neitherredirect nor order: foo"
        "<foo/>" :=
  ⟨rfl, rfl⟩

/-- Claim C4 (code bug): `PyCardPay.__init__` imports `finish_3ds` from
`.api`, but `api.py` defines no such function, so the package fails at
import; and the redirect branch of `pay` returns a dict holding only the
url attribute, dropping the MD and PaReq continuation tokens even when
the reply carries them. -/
theorem c4_finish_3ds_missing_tokens_dropped :
    "finish_3ds" ∈ initImportsFromApi
    ∧ "finish_3ds" ∉ apiModuleDefs
    ∧ payDecode "raw" redirectWithTokens =
        .ok [("url", Value.vStr "https://acs.example.com/3ds")]
    ∧ (payDecode "raw" redirectWithTokens).map
        (fun r => (alookup r "MD", alookup r "PaReq")) = .ok (none, none) :=
  ⟨by decide, by decide, rfl, rfl⟩

/-- Claim C2: when the SHA-512 digest of the decoded payload concatenated
with the secret differs from the supplied digest, `CardPay.parse_callback`
fails with `SignatureError`, for every parse function: the payload is
never parsed or decoded. -/
theorem c2_signature_mismatch_rejected
    (parseFn : List Nat → Except PyErr Elem) (secret : List Nat)
    (b64s sig : String) (dec : List Nat)
    (hdec : b64decodeStr b64s = some dec)
    (hne : sha512hex (dec ++ secret) ≠ sig) :
    parse_callback parseFn secret b64s sig =
      .error (PyErr.signatureError "Incorrect signature") := by
  simp only [parse_callback, hdec]
  rw [if_pos hne]

theorem c2_signature_mismatch_rejected_witness :
    b64decodeStr "" = some []
    ∧ sha512hex ([] ++ ([] : List Nat)) ≠ "forged"
    ∧ parse_callback (fun _ => .error PyErr.typeError) [] "" "forged" =
        .error (PyErr.signatureError "Incorrect signature") := by
  have h : sha512hex ([] ++ ([] : List Nat)) ≠ "forged" := by decide
  exact ⟨rfl, h,
    c2_signature_mismatch_rejected (fun _ => .error PyErr.typeError) [] ""
      "forged" [] rfl h⟩

/-- Claim C10: `CardPay.pay` encodes the order dict with the context's
wallet id written over any caller-supplied wallet_id entry, and leaves
every other key of the order dict unchanged. -/
theorem c10_wallet_id_overridden (w : Int) (order : PyDict)
    (items : List PyDict) (billing shipping card recurring : Option PyDict)
    (today : String) :
    cardPayPayXml w order items billing shipping card recurring today =
      order_to_xml (aset order "wallet_id" (PyVal.pyInt w)) items billing
        shipping card false none recurring today
    ∧ alookup (aset order "wallet_id" (PyVal.pyInt w)) "wallet_id" =
        some (PyVal.pyInt w)
    ∧ ∀ k : String, k ≠ "wallet_id" →
        alookup (aset order "wallet_id" (PyVal.pyInt w)) k =
          alookup order k :=
  ⟨rfl, alookup_aset_self order "wallet_id" _,
    fun k hk => alookup_aset_ne order "wallet_id" _ k hk⟩

theorem c10_wallet_id_overridden_witness :
    cardPayPayXml 42 orderW [] none none none none "d" =
      order_to_xml (aset orderW "wallet_id" (PyVal.pyInt 42)) [] none none
        none false none none "d"
    ∧ alookup (aset orderW "wallet_id" (PyVal.pyInt 42)) "wallet_id" =
        some (PyVal.pyInt 42)
    ∧ alookup (aset orderW "wallet_id" (PyVal.pyInt 42)) "email" =
        alookup orderW "email" := by
  obtain ⟨h1, h2, h3⟩ :=
    c10_wallet_id_overridden 42 orderW [] none none none none "d"
  exact ⟨h1, h2, h3 "email" (by decide)⟩

/-! ### Determinism of the encoder in the current date -/

theorem addRecurring_today_indep {recurring : Option PyDict}
    (h : recurringBeginIndep recurring = true) (e : Elem) (d1 d2 : String) :
    addRecurring e recurring d1 = addRecurring e recurring d2 := by
  cases recurring with
  | none => rfl
  | some r =>
      simp only [recurringBeginIndep, Bool.or_eq_true] at h
      cases hr : r.isEmpty with
      | true => simp [addRecurring, hr]
      | false =>
          rcases h with h | h
          · rw [hr] at h; cases h
          · cases hb : alookup r "begin" with
            | none => rw [hb] at h; simp at h
            | some v => simp [addRecurring, hr, hb]

theorem exceptBind_congr {ε α β : Type} (x : Except ε α)
    (f g : α → Except ε β) (h : ∀ a, f a = g a) :
    Except.bind x f = Except.bind x g := by
  cases x with
  | error err => rfl
  | ok a => exact h a

theorem order_to_xml_today_indep (order : PyDict) (items : List PyDict)
    (billing shipping card : Option PyDict) (gct : Bool)
    (ctok : Option String) (recurring : Option PyDict) (d1 d2 : String)
    (h : recurringBeginIndep recurring = true) :
    order_to_xml order items billing shipping card gct ctok recurring d1 =
      order_to_xml order items billing shipping card gct ctok recurring
        d2 := by
  simp only [order_to_xml]
  apply exceptBind_congr
  intro e0
  apply exceptBind_congr
  intro e1
  apply exceptBind_congr
  intro e2
  apply exceptBind_congr
  intro e3
  apply exceptBind_congr
  intro e4
  exact addRecurring_today_indep h e4 d1 d2

/-- Claim C3 (amended): encoding the same order twice yields byte-identical
serialized output and identical digests, provided the recurring dict
(when present and truthy) carries an explicit begin date, or the two
encodings observe the same current date.  With an implicit begin date the
output embeds the current date, so encodings on different dates differ. -/
theorem c3_encoding_deterministic (order : PyDict) (items : List PyDict)
    (billing shipping card : Option PyDict) (gct : Bool)
    (ctok : Option String) (recurring : Option PyDict) (secret : List Nat)
    (d1 d2 : String)
    (h : recurringBeginIndep recurring = true ∨ d1 = d2) :
    (order_to_xml order items billing shipping card gct ctok recurring
        d1).map (fun e => xml_to_string e false) =
      (order_to_xml order items billing shipping card gct ctok recurring
        d2).map (fun e => xml_to_string e false)
    ∧ (order_to_xml order items billing shipping card gct ctok recurring
        d1).map (fun e => xml_get_sha512 e secret) =
      (order_to_xml order items billing shipping card gct ctok recurring
        d2).map (fun e => xml_get_sha512 e secret) := by
  have key : order_to_xml order items billing shipping card gct ctok
      recurring d1 =
      order_to_xml order items billing shipping card gct ctok recurring
        d2 := by
    rcases h with h | h
    · exact order_to_xml_today_indep order items billing shipping card gct
        ctok recurring d1 d2 h
    · rw [h]
  rw [key]
  exact ⟨rfl, rfl⟩

theorem c3_encoding_deterministic_witness :
    (recurringBeginIndep (some recWithBegin) = true ∨
      "01.01.2015" = "02.01.2015")
    ∧ (order_to_xml order9 [] none none none false none
        (some recWithBegin) "01.01.2015").map
        (fun e => xml_to_string e false) =
      (order_to_xml order9 [] none none none false none
        (some recWithBegin) "02.01.2015").map
        (fun e => xml_to_string e false)
    ∧ (order_to_xml order9 [] none none none false none
        (some recWithBegin) "01.01.2015").map
        (fun e => xml_get_sha512 e (strBytes "secret")) =
      (order_to_xml order9 [] none none none false none
        (some recWithBegin) "02.01.2015").map
        (fun e => xml_get_sha512 e (strBytes "secret")) := by
  have h : recurringBeginIndep (some recWithBegin) = true := by decide
  obtain ⟨h1, h2⟩ := c3_encoding_deterministic order9 [] none none none
    false none (some recWithBegin) (strBytes "secret") "01.01.2015"
    "02.01.2015" (Or.inl h)
  exact ⟨Or.inl h, h1, h2⟩

/-- Claim C3 counterexample: with a recurring dict that has no explicit
begin date, two encodings of the same logical order performed on
different current dates serialize to different bytes. -/
theorem c3_counterexample :
    exOk ((order_to_xml order9 [] none none none false none
        (some recNoBegin) "01.01.2015").map
        (fun e => xml_to_string e false)) ≠
      exOk ((order_to_xml order9 [] none none none false none
        (some recNoBegin) "02.01.2015").map
        (fun e => xml_to_string e false)) := by
  decide

/-! ### The id and refund_id sentinel -/

theorem decodeAttrs_dash (attrs : List String) (e : Elem)
    (r : List (String × Value)) (a : String) (hmem : a ∈ attrs)
    (ha : a = "id" ∨ a = "refund_id") (hv : Elem.get e a = some "-")
    (hok : decodeAttrs attrs e = .ok r) :
    alookup r a = some Value.vNone := by
  induction attrs generalizing r with
  | nil => cases hmem
  | cons b rest ih =>
      by_cases hba : b = a
      · subst hba
        have hc : coerce b "-" = .ok Value.vNone := by
          rcases ha with h | h <;> subst h <;> rfl
        simp only [decodeAttrs, hv, hc] at hok
        cases ht : decodeAttrs rest e with
        | error err => rw [ht] at hok; simp at hok
        | ok tail =>
            rw [ht] at hok
            injection hok with hr
            subst hr
            simp [alookup]
      · have hmem' : a ∈ rest := by
          rcases List.mem_cons.mp hmem with hh | hh
          · exact absurd hh.symm hba
          · exact hh
        cases hg : Elem.get e b with
        | none =>
            simp only [decodeAttrs, hg] at hok
            exact ih _ hmem' hok
        | some v =>
            cases hc : coerce b v with
            | error err =>
                simp only [decodeAttrs, hg, hc] at hok
                simp at hok
            | ok val =>
                cases ht : decodeAttrs rest e with
                | error err =>
                    simp only [decodeAttrs, hg, hc, ht] at hok
                    simp at hok
                | ok tail =>
                    simp only [decodeAttrs, hg, hc, ht] at hok
                    injection hok with hr
                    subst hr
                    simp only [alookup]
                    rw [if_neg hba]
                    exact ih _ hmem' ht

theorem decodeAttrs_int (attrs : List String) (e : Elem)
    (r : List (String × Value)) (a s : String) (n : Int) (hmem : a ∈ attrs)
    (ha : a = "id" ∨ a = "refund_id") (hv : Elem.get e a = some s)
    (hs : s ≠ "-") (hn : pyIntOfString s = some n)
    (hok : decodeAttrs attrs e = .ok r) :
    alookup r a = some (Value.vInt n) := by
  induction attrs generalizing r with
  | nil => cases hmem
  | cons b rest ih =>
      by_cases hba : b = a
      · subst hba
        have hc : coerce b s = .ok (Value.vInt n) := by
          rcases ha with h | h <;> subst h <;> simp [coerce, hs, hn]
        simp only [decodeAttrs, hv, hc] at hok
        cases ht : decodeAttrs rest e with
        | error err => rw [ht] at hok; simp at hok
        | ok tail =>
            rw [ht] at hok
            injection hok with hr
            subst hr
            simp [alookup]
      · have hmem' : a ∈ rest := by
          rcases List.mem_cons.mp hmem with hh | hh
          · exact absurd hh.symm hba
          · exact hh
        cases hg : Elem.get e b with
        | none =>
            simp only [decodeAttrs, hg] at hok
            exact ih _ hmem' hok
        | some v =>
            cases hc : coerce b v with
            | error err =>
                simp only [decodeAttrs, hg, hc] at hok
                simp at hok
            | ok val =>
                cases ht : decodeAttrs rest e with
                | error err =>
                    simp only [decodeAttrs, hg, hc, ht] at hok
                    simp at hok
                | ok tail =>
                    simp only [decodeAttrs, hg, hc, ht] at hok
                    injection hok with hr
                    subst hr
                    simp only [alookup]
                    rw [if_neg hba]
                    exact ih _ hmem' ht

/-- Claim C7: in every successful `parse_order` decode, an `id` or
`refund_id` attribute holding the literal sentinel "-" yields the `None`
value for that field (absent, not zero and not an error), while any other
value for `id` decodes through `int`; and a reply holding only the
sentinels decodes without error. -/
theorem c7_id_sentinel_absent :
    (∀ (e : Elem) (r : List (String × Value)), parse_order e = .ok r →
      (Elem.get e "id" = some "-" → alookup r "id" = some Value.vNone)
      ∧ (Elem.get e "refund_id" = some "-" →
          alookup r "refund_id" = some Value.vNone)
      ∧ (∀ (s : String) (n : Int), Elem.get e "id" = some s → s ≠ "-" →
          pyIntOfString s = some n →
          alookup r "id" = some (Value.vInt n)))
    ∧ parse_order (Elem.mk "order" [("id", "-"), ("refund_id", "-")] []) =
        .ok [("id", Value.vNone), ("refund_id", Value.vNone)] := by
  constructor
  · intro e r hok
    have hok' : decodeAttrs parseOrderAttrs e = .ok r := hok
    refine ⟨fun hv => decodeAttrs_dash parseOrderAttrs e r "id" (by decide)
        (Or.inl rfl) hv hok',
      fun hv => decodeAttrs_dash parseOrderAttrs e r "refund_id"
        (by decide) (Or.inr rfl) hv hok',
      fun s n hv hs hn => decodeAttrs_int parseOrderAttrs e r "id" s n
        (by decide) (Or.inl rfl) hv hs hn hok'⟩
  · rfl

theorem c7_id_sentinel_absent_witness :
    parse_order (Elem.mk "order" [("id", "-")] []) =
      .ok [("id", Value.vNone)]
    ∧ alookup [("id", Value.vNone)] "id" = some Value.vNone := by
  refine ⟨rfl, ?_⟩
  exact (c7_id_sentinel_absent.1 (Elem.mk "order" [("id", "-")] [])
    [("id", Value.vNone)] rfl).1 rfl

/-! ### Equivalence of the two order decoders -/

theorem decodeAttrs_skip (e : Elem) (a : String)
    (h : Elem.get e a = none) (pre post : List String) :
    decodeAttrs (pre ++ a :: post) e = decodeAttrs (pre ++ post) e := by
  induction pre with
  | nil => simp [decodeAttrs, h]
  | cons b pre ih =>
      cases hb : Elem.get e b with
      | none =>
          simp only [List.cons_append, decodeAttrs, hb]
          exact ih
      | some v => simp [decodeAttrs, hb, ih]

/-- Claim C8 (amended): the request-reply decoder `parse_order` and the
inline callback decoder agree on every element that carries no
decline_reason attribute; they differ exactly in that `parse_order`
also recognizes decline_reason, which the callback decoder ignores. -/
theorem c8_decoders_agree_without_decline_reason (e : Elem)
    (h : Elem.get e "decline_reason" = none) :
    parse_order e = parseCallbackDecode e := by
  show decodeAttrs parseOrderAttrs e = decodeAttrs callbackAttrs e
  have hsplit : parseOrderAttrs =
      ["id", "refund_id", "number", "status", "description", "date",
       "customer_id", "card_bin", "card_num", "card_holder",
       "decline_code"] ++ "decline_reason" ::
        ["approval_code", "is_3d", "currency", "amount", "recurring_id",
         "refunded", "note"] := rfl
  have hsplit2 : callbackAttrs =
      ["id", "refund_id", "number", "status", "description", "date",
       "customer_id", "card_bin", "card_num", "card_holder",
       "decline_code"] ++
        ["approval_code", "is_3d", "currency", "amount", "recurring_id",
         "refunded", "note"] := rfl
  rw [hsplit, hsplit2]
  exact decodeAttrs_skip e "decline_reason" h _ _

theorem c8_decoders_agree_witness :
    Elem.get (Elem.mk "order" [("id", "5")] []) "decline_reason" = none
    ∧ parse_order (Elem.mk "order" [("id", "5")] []) =
        parseCallbackDecode (Elem.mk "order" [("id", "5")] []) :=
  ⟨rfl, c8_decoders_agree_without_decline_reason
    (Elem.mk "order" [("id", "5")] []) rfl⟩

/-- Claim C8 counterexample: on an element carrying decline_reason the two
decoders produce different results, so they do not recognize the same
attribute set. -/
theorem c8_counterexample :
    parse_order (Elem.mk "order" [("decline_reason", "Cancelled")] []) =
      .ok [("decline_reason", Value.vStr "Cancelled")]
    ∧ parseCallbackDecode
        (Elem.mk "order" [("decline_reason", "Cancelled")] []) = .ok []
    ∧ exOk (parse_order
        (Elem.mk "order" [("decline_reason", "Cancelled")] [])) ≠
      exOk (parseCallbackDecode
        (Elem.mk "order" [("decline_reason", "Cancelled")] [])) :=
  ⟨rfl, rfl, by decide⟩
